import Mathlib

/-!
The otel-logs-example program: telemetry bootstrap and periodic emitter.

A shallow embedding of `internal/telemetry/otel.go` (`Setup`) and of
`cmd/web-based/main.go` (`SessionEvent`, `generateSessionEvent`, `main`).

The Go program is a thin layer over external libraries (os, the OpenTelemetry
config/SDK packages, zap, encoding/json, gofakeit, time).  The calls into these
libraries whose results the program branches on are inputs of the model
(`Env`, `Fake`, `Tick`); the state the program mutates (the process-wide
OpenTelemetry registry, the log stream, the metric instruments, the exit
status) is passed explicitly.
-/

namespace OtelLogs

/-! ## Basic Go data -/

/-- A Go `string` / `[]byte`: an arbitrary byte sequence. -/
abbrev GoString := List UInt8

/-- A non-nil Go `error`, identified by its message. A nil error is `none`. -/
abbrev Error := String

/-- The only context the program uses is `context.Background()`. -/
inductive Context
  | background
  deriving DecidableEq, Repr

/-! ## Process-wide OpenTelemetry state -/

/-- Identity of a provider implementation: the default one present at process start,
a no-op one, or one built by an SDK instance. -/
inductive ProviderImpl
  | default
  | noop
  | sdk (id : Nat)
  deriving DecidableEq, Repr

structure TracerProvider where
  impl : ProviderImpl
  deriving DecidableEq, Repr

structure MeterProvider where
  impl : ProviderImpl
  deriving DecidableEq, Repr

structure LoggerProvider where
  impl : ProviderImpl
  deriving DecidableEq, Repr

/-- The propagators of package `propagation` the program constructs. -/
inductive TextMapPropagator
  | default
  | TraceContext
  | Baggage
  | composite (ps : List TextMapPropagator)
  deriving Repr

/-- The process-wide registry read and written through package `otel` and `log/global`. -/
structure Globals where
  propagator : TextMapPropagator
  tracerProvider : TracerProvider
  meterProvider : MeterProvider
  loggerProvider : LoggerProvider

/-- The registry of a freshly started process. Package initialisation of `telemetry`
(`var Meter = otel.GetMeterProvider().Meter("geoip-meter")`) only reads it. -/
def Globals.initial : Globals :=
  { propagator := .default
    tracerProvider := ⟨.default⟩
    meterProvider := ⟨.default⟩
    loggerProvider := ⟨.default⟩ }

def NewCompositeTextMapPropagator (ps : List TextMapPropagator) : TextMapPropagator :=
  .composite ps

def SetTextMapPropagator (p : TextMapPropagator) (g : Globals) : Globals :=
  { g with propagator := p }

def SetTracerProvider (tp : TracerProvider) (g : Globals) : Globals :=
  { g with tracerProvider := tp }

def SetMeterProvider (mp : MeterProvider) (g : Globals) : Globals :=
  { g with meterProvider := mp }

def SetLoggerProvider (lp : LoggerProvider) (g : Globals) : Globals :=
  { g with loggerProvider := lp }

def GetMeterProvider (g : Globals) : MeterProvider := g.meterProvider

def GetLoggerProvider (g : Globals) : LoggerProvider := g.loggerProvider

/-! ## The SDK built from a configuration -/

/-- A parsed `OpenTelemetryConfiguration`; its content is interpreted by the SDK only. -/
structure Conf where
  text : GoString
  deriving DecidableEq, Repr

/-- A `config.SDK` value: three providers and one combined shutdown closure. -/
structure SDK where
  tracerProvider : TracerProvider
  meterProvider : MeterProvider
  loggerProvider : LoggerProvider
  shutdown : Nat
  deriving DecidableEq, Repr

/-- A non-nil `func(context.Context) error`. The only one the program handles is the
method value `sdk.Shutdown`. A nil function value is `none`. -/
inductive ShutdownFunc
  | ofSDK (sdk : SDK)
  deriving DecidableEq, Repr

def SDK.Shutdown (sdk : SDK) : ShutdownFunc := .ofSDK sdk

/-- The library calls `Setup` and `main` make and branch on. Results follow Go's
`(value, error)` convention: the error component is `none` for nil. -/
structure Env where
  /-- Go os.ReadFile. -/
  ReadFile : String → GoString × Option Error
  /-- Go os.ExpandEnv. -/
  ExpandEnv : GoString → GoString
  /-- Go config.ParseYAML. -/
  ParseYAML : GoString → Conf × Option Error
  /-- Go config.NewSDK(config.WithContext(ctx), config.WithOpenTelemetryConfiguration(conf)). -/
  NewSDK : Context → Conf → SDK × Option Error
  /-- The string quoting of `encoding/json` (it has no error result). -/
  quote : GoString → GoString

namespace telemetry

/-- Go telemetry.Setup: returns the shutdown function and the error, and the registry
after the call. -/
def Setup (env : Env) (ctx : Context) (confFlag : String) (g : Globals) :
    (Option ShutdownFunc × Option Error) × Globals :=
  -- read the configuration file
  match env.ReadFile confFlag with
  | (_, some err) => ((none, some err), g)
  | (b, none) =>
    -- interpolate the environment variables
    let b := env.ExpandEnv b
    -- parse the config
    match env.ParseYAML b with
    | (_, some err) => ((none, some err), g)
    | (conf, none) =>
      -- create a new SDK instance with the parsed configuration
      match env.NewSDK ctx conf with
      | (_, some err) => ((none, some err), g)
      | (sdk, none) =>
        let g := SetTextMapPropagator
          (NewCompositeTextMapPropagator [.TraceContext, .Baggage]) g
        let g := SetTracerProvider sdk.tracerProvider g
        let g := SetMeterProvider sdk.meterProvider g
        let g := SetLoggerProvider sdk.loggerProvider g
        ((some sdk.Shutdown, none), g)

end telemetry

/-! ## Session events and their JSON encoding -/

/-- SessionEvent represents a synthetic user session activity. -/
structure SessionEvent where
  SessionID : GoString
  CustomerEmail : GoString
  LoginCountry : GoString
  Browser : GoString
  LoginTime : GoString
  IPAddress : GoString
  deriving DecidableEq, Repr

/-- The values the fake-data generator and the clock hand to one call of
`generateSessionEvent`. -/
structure Fake where
  UUID : GoString
  Email : GoString
  Country : GoString
  UserAgent : GoString
  NowRFC3339 : GoString
  IPv4Address : GoString
  deriving DecidableEq, Repr

def generateSessionEvent (f : Fake) : SessionEvent :=
  { SessionID := f.UUID
    CustomerEmail := f.Email
    LoginCountry := f.Country
    Browser := f.UserAgent
    LoginTime := f.NowRFC3339
    IPAddress := f.IPv4Address }

/-- A struct field as the reflective JSON encoder sees it: a string, a float64 (which
is encodable only when finite), or a value of a kind JSON cannot represent. -/
inductive FieldValue
  | string (s : GoString)
  | float64 (finite : Bool) (text : GoString)
  | chan
  | func
  deriving DecidableEq, Repr

/-- The exported fields of `SessionEvent` under their `json` tags, in declaration order. -/
def SessionEvent.fields (e : SessionEvent) : List (String × FieldValue) :=
  [ ("session_id", .string e.SessionID)
  , ("email", .string e.CustomerEmail)
  , ("country", .string e.LoginCountry)
  , ("browser", .string e.Browser)
  , ("login_time", .string e.LoginTime)
  , ("ip_address", .string e.IPAddress) ]

/-! `encoding/json` is a library, not part of the repository. The definitions below give
its behaviour on a struct whose exported fields are of the kinds of `FieldValue`: the
object is written member by member, and the only errors are those of values JSON cannot
represent. The quoting of a string is left to `Env.quote`. -/

namespace json

/-- Encoding of one field value: the text, or the encoder's error. -/
def encodeValue (quote : GoString → GoString) : FieldValue → GoString × Option Error
  | .string s => (quote s, none)
  | .float64 true text => (text, none)
  | .float64 false _ => ([], some "json: unsupported value")
  | .chan => ([], some "json: unsupported type: chan")
  | .func => ([], some "json: unsupported type: func")

/-- Members of a JSON object, comma separated; the first error aborts the encoding. -/
def encodeFields (quote : GoString → GoString) :
    Bool → List (String × FieldValue) → GoString × Option Error
  | _, [] => ([], none)
  | first, (name, v) :: rest =>
    match encodeValue quote v with
    | (_, some err) => ([], some err)
    | (text, none) =>
      match encodeFields quote false rest with
      | (_, some err) => ([], some err)
      | (tail, none) =>
        ((if first then [] else [44]) ++ [34] ++ name.toUTF8.toList ++ [34, 58] ++ text ++ tail,
          none)

/-- Go json.Marshal applied to a struct with the given fields. -/
def Marshal (quote : GoString → GoString) (fields : List (String × FieldValue)) :
    GoString × Option Error :=
  match encodeFields quote true fields with
  | (_, some err) => ([], some err)
  | (body, none) => ([123] ++ body ++ [125], none)

end json

/-! ## Logging (zap) -/

/-- The levels of zapcore, with their numeric values. -/
inductive Level
  | debug | info | warn | error | dpanic | panic | fatal
  deriving DecidableEq, Repr

def Level.toInt : Level → Int
  | .debug => -1
  | .info => 0
  | .warn => 1
  | .error => 2
  | .dpanic => 3
  | .panic => 4
  | .fatal => 5

/-- The two kinds of zap field the program attaches to an entry. -/
inductive Field
  | error (err : Error)
  | string (key : String) (val : GoString)
  deriving DecidableEq, Repr

structure LogEntry where
  level : Level
  msg : String
  fields : List Field
  deriving DecidableEq, Repr

/-- The logger of `main`: a tee of a JSON core on stdout with a minimum level and an
otelzap core bound to a logger provider. -/
structure Logger where
  stdoutLevel : Level
  otelName : String
  otelProvider : LoggerProvider
  deriving DecidableEq, Repr

/-! ## Metrics -/

/-- A meter: the provider it was obtained from and its instrumentation name. -/
structure Meter where
  provider : MeterProvider
  name : String
  deriving DecidableEq, Repr

/-- Go otel.Meter(name), which is `GetMeterProvider().Meter(name)`. -/
def otelMeter (name : String) (g : Globals) : Meter :=
  { provider := GetMeterProvider g, name := name }

inductive InstrumentKind
  | int64Counter
  | float64Histogram
  deriving DecidableEq, Repr

/-- An instrument handle: identified by the meter it was created from, its kind and name. -/
structure Instrument where
  meter : Meter
  kind : InstrumentKind
  name : String
  deriving DecidableEq, Repr

/-- A `time.Duration`: nanoseconds. -/
abbrev Duration := Int

/-- The float64 that `Duration.Seconds` returns for a duration; the conversion itself is
not interpreted. -/
structure Float64 where
  secondsOf : Duration
  deriving DecidableEq, Repr

def Duration.Seconds (d : Duration) : Float64 := ⟨d⟩

/-! ## Process state -/

inductive Status
  | running
  | returned
  | exited (code : Nat)
  | panicked
  deriving DecidableEq, Repr

/-- Everything `main` reads or changes. A counter's value is the sum of the increments
passed to `Add` on it; a histogram holds the values passed to `Record`, oldest first. -/
structure Proc where
  globals : Globals
  /-- Entries written to stdout, oldest first. -/
  stdout : List LogEntry
  /-- The logger `main` built. -/
  logger : Option Logger
  /-- The meter `main` obtained. -/
  meter : Option Meter
  /-- Instruments created so far, oldest first. -/
  instruments : List Instrument
  counter : Instrument → Int
  histogram : Instrument → List Float64
  /-- Shutdown functions invoked so far, oldest first. -/
  shutdowns : List ShutdownFunc
  status : Status

def Proc.start : Proc :=
  { globals := Globals.initial
    stdout := []
    logger := none
    meter := none
    instruments := []
    counter := fun _ => 0
    histogram := fun _ => []
    shutdowns := []
    status := .running }

/-- Write one entry through the logger: the stdout core takes it when its level is
enabled. What the otelzap core passes on to its provider is decided inside the SDK and
is not part of the state. -/
def Logger.write (lg : Logger) (e : LogEntry) (s : Proc) : Proc :=
  if lg.stdoutLevel.toInt ≤ e.level.toInt then { s with stdout := s.stdout ++ [e] } else s

def Logger.Info (lg : Logger) (msg : String) (fields : List Field) (s : Proc) : Proc :=
  lg.write ⟨.info, msg, fields⟩ s

def Logger.Error (lg : Logger) (msg : String) (fields : List Field) (s : Proc) : Proc :=
  lg.write ⟨.error, msg, fields⟩ s

/-- Go logger.Fatal: writes the entry, then calls `os.Exit(1)`. -/
def Logger.Fatal (lg : Logger) (msg : String) (fields : List Field) (s : Proc) : Proc :=
  { lg.write ⟨.fatal, msg, fields⟩ s with status := .exited 1 }

def Meter.Int64Counter (m : Meter) (name : String) (s : Proc) : Instrument × Proc :=
  let i : Instrument := ⟨m, .int64Counter, name⟩
  (i, { s with instruments := s.instruments ++ [i] })

def Meter.Float64Histogram (m : Meter) (name : String) (s : Proc) : Instrument × Proc :=
  let i : Instrument := ⟨m, .float64Histogram, name⟩
  (i, { s with instruments := s.instruments ++ [i] })

def Instrument.Add (i : Instrument) (incr : Int) (s : Proc) : Proc :=
  { s with counter := Function.update s.counter i (s.counter i + incr) }

def Instrument.Record (i : Instrument) (v : Float64) (s : Proc) : Proc :=
  { s with histogram := Function.update s.histogram i (s.histogram i ++ [v]) }

/-! ## The emitter loop and `main` -/

/-- What one tick of the ticker brings in from outside: the generator's values and the
result of `time.Since(start)` read when the duration is recorded. -/
structure Tick where
  fake : Fake
  since : Duration
  deriving DecidableEq, Repr

/-- The handles a cycle uses. -/
structure Handles where
  logger : Logger
  requestsCounter : Instrument
  errorCounter : Instrument
  durationHist : Instrument
  deriving DecidableEq, Repr

/-- One iteration of the body of `for range ticker.C` in `main`, with the serializer
`marshal` standing for `json.Marshal`. -/
def cycle (marshal : SessionEvent → GoString × Option Error) (h : Handles) (t : Tick)
    (s : Proc) : Proc :=
  -- Generate event
  let event := generateSessionEvent t.fake
  match marshal event with
  | (_, some err) =>
    let s := h.logger.Error "Error serializing session event" [.error err] s
    h.errorCounter.Add 1 s
  | (payload, none) =>
    -- Log structured event via OTel logger
    let s := h.logger.Info "New session log event" [.string "data" payload] s
    -- Metrics
    let s := h.requestsCounter.Add 1 s
    h.durationHist.Record (Duration.Seconds t.since) s

/-- What a receive from a channel yields. -/
inductive Recv
  | value (t : Tick)
  | closed
  deriving DecidableEq, Repr

/-- Go `for range ch`: runs the body once per received value and leaves the loop when
the channel is closed. The result says whether the loop was left; when the receives are
used up without a close the loop is still blocked on the channel. -/
def forRange (body : Tick → Proc → Proc) : List Recv → Proc → Proc × Bool
  | [], s => (s, false)
  | .closed :: _, s => (s, true)
  | .value t :: rest, s => forRange body rest (body t s)

/-- The channel of a `time.Ticker` delivers ticks and is never closed. -/
def tickerC (ticks : List Tick) : List Recv := ticks.map .value

/-- Return from `main`: the deferred call `closer(context.Background())` runs. -/
def returnFromMain (closer : Option ShutdownFunc) (s : Proc) : Proc :=
  match closer with
  | some f => { s with shutdowns := s.shutdowns ++ [f], status := .returned }
  | none => { s with status := .panicked }

/-- The logger `main` builds, given the registry at that point. -/
def mainLogger (g : Globals) : Logger :=
  { stdoutLevel := .info
    otelName := "otel-logs-example"
    otelProvider := GetLoggerProvider g }

/-- Go `main` with the serializer as a parameter. `otelFlag` is the value of the
`-otel` flag when given; `ticks` are the ticks the process receives before it is
terminated from outside. -/
def mainWith (marshal : SessionEvent → GoString × Option Error) (env : Env)
    (otelFlag : Option String) (ticks : List Tick) : Proc :=
  let otelConfigFlag := otelFlag.getD "./otel.yaml"
  let s := Proc.start
  -- Structured + OTel logger
  let logger := mainLogger s.globals
  let s := { s with logger := some logger }
  -- Initialize OTel SDK
  match telemetry.Setup env .background otelConfigFlag s.globals with
  | ((_, some err), g) =>
    logger.Fatal "Failed to setup telemetry SDK" [.error err] { s with globals := g }
  | ((closer, none), g) =>
    let s := { s with globals := g }
    -- Meters
    let meter := otelMeter "otel-logs-example" s.globals
    let s := { s with meter := some meter }
    let (requestsCounter, s) := meter.Int64Counter "session_requests_total" s
    let (errorCounter, s) := meter.Int64Counter "session_errors_total" s
    let (durationHist, s) := meter.Float64Histogram "session_processing_duration_seconds" s
    let s := logger.Info "Session generator started" [] s
    let h : Handles := ⟨logger, requestsCounter, errorCounter, durationHist⟩
    match forRange (cycle marshal h) (tickerC ticks) s with
    | (s, true) => returnFromMain closer s
    | (s, false) => s

/-- Go `main`: the serializer is `json.Marshal` on a `SessionEvent`. -/
def main (env : Env) (otelFlag : Option String) (ticks : List Tick) : Proc :=
  mainWith (fun e => json.Marshal env.quote e.fields) env otelFlag ticks

/-! ## Observations on a run -/

/-- The three instruments of `main` for a given meter. -/
def requestsCounterOf (m : Meter) : Instrument := ⟨m, .int64Counter, "session_requests_total"⟩

def errorCounterOf (m : Meter) : Instrument := ⟨m, .int64Counter, "session_errors_total"⟩

def durationHistOf (m : Meter) : Instrument :=
  ⟨m, .float64Histogram, "session_processing_duration_seconds"⟩

def mainHandles (g : Globals) (m : Meter) : Handles :=
  ⟨mainLogger g, requestsCounterOf m, errorCounterOf m, durationHistOf m⟩

/-- Number of entries of a given level in a log. -/
def countLevel (l : Level) (log : List LogEntry) : Nat :=
  (log.filter (fun e => e.level = l)).length

/-- The entry a cycle writes, by the outcome of its serialization. -/
def cycleEntry (marshal : SessionEvent → GoString × Option Error) (t : Tick) : LogEntry :=
  match marshal (generateSessionEvent t.fake) with
  | (_, some err) => ⟨.error, "Error serializing session event", [.error err]⟩
  | (payload, none) => ⟨.info, "New session log event", [.string "data" payload]⟩

/-- Ticks whose record serializes. -/
def successes (marshal : SessionEvent → GoString × Option Error) (ticks : List Tick) :
    List Tick :=
  ticks.filter (fun t => (marshal (generateSessionEvent t.fake)).2.isNone)

/-- Ticks whose record fails to serialize. -/
def failures (marshal : SessionEvent → GoString × Option Error) (ticks : List Tick) :
    List Tick :=
  ticks.filter (fun t => (marshal (generateSessionEvent t.fake)).2.isSome)

/-- The state in which `main` enters its loop when `Setup` has left the registry `g`. -/
def loopEntry (g : Globals) : Proc :=
  { globals := g
    stdout := [⟨.info, "Session generator started", []⟩]
    logger := some (mainLogger Globals.initial)
    meter := some (otelMeter "otel-logs-example" g)
    instruments :=
      [ requestsCounterOf (otelMeter "otel-logs-example" g)
      , errorCounterOf (otelMeter "otel-logs-example" g)
      , durationHistOf (otelMeter "otel-logs-example" g) ]
    counter := fun _ => 0
    histogram := fun _ => []
    shutdowns := []
    status := .running }

/-- The state in which `main` ends when `Setup` has failed with `err`. -/
def fatalExit (err : Error) : Proc :=
  { globals := Globals.initial
    stdout := [⟨.fatal, "Failed to setup telemetry SDK", [.error err]⟩]
    logger := some (mainLogger Globals.initial)
    meter := none
    instruments := []
    counter := fun _ => 0
    histogram := fun _ => []
    shutdowns := []
    status := .exited 1 }

/-- The error `Setup` returns to `main`. -/
def setupError (env : Env) (otelFlag : Option String) : Option Error :=
  (telemetry.Setup env .background (otelFlag.getD "./otel.yaml") Globals.initial).1.2

/-- The registry `Setup` leaves to `main`. -/
def setupGlobals (env : Env) (otelFlag : Option String) : Globals :=
  (telemetry.Setup env .background (otelFlag.getD "./otel.yaml") Globals.initial).2

/-- The meter `main` obtains after `Setup`. -/
def mainMeter (env : Env) (otelFlag : Option String) : Meter :=
  otelMeter "otel-logs-example" (setupGlobals env otelFlag)

/-! ## Sample inputs -/

/-- An environment in which every step of `Setup` succeeds and the SDK has its own
providers. -/
def goodEnv : Env :=
  { ReadFile := fun _ => ([], none)
    ExpandEnv := fun b => b
    ParseYAML := fun b => (⟨b⟩, none)
    NewSDK := fun _ _ => (⟨⟨.sdk 1⟩, ⟨.sdk 1⟩, ⟨.sdk 1⟩, 1⟩, none)
    quote := fun s => [34] ++ s ++ [34] }

/-- An environment in which the configuration file cannot be read. -/
def unreadableEnv : Env :=
  { goodEnv with ReadFile := fun _ => ([], some "open ./otel.yaml: no such file or directory") }

/-- A serializer that fails on every record. -/
def failingMarshal : SessionEvent → GoString × Option Error :=
  fun _ => ([], some "marshal failed")

/-- A serializer that fails exactly on records with an empty session id. -/
def pickyMarshal : SessionEvent → GoString × Option Error :=
  fun e => if e.SessionID = [] then ([], some "marshal failed") else (e.SessionID, none)

def okTick : Tick := ⟨⟨[1], [], [], [], [], []⟩, 1000⟩

def badTick : Tick := ⟨⟨[], [], [], [], [], []⟩, 1000⟩

/-! ## Bootstrap: `telemetry.Setup` -/

/-- C1: when reading the file, parsing the expanded text or constructing the SDK fails,
`Setup` returns a nil shutdown function and a non-nil error, and the process-wide
registry (propagator and the three providers) is what it was before the call. -/
theorem Setup_failure_leaves_globals (env : Env) (ctx : Context) (confFlag : String)
    (g : Globals)
    (hfail : (env.ReadFile confFlag).2 ≠ none ∨
      (env.ParseYAML (env.ExpandEnv (env.ReadFile confFlag).1)).2 ≠ none ∨
      (env.NewSDK ctx (env.ParseYAML (env.ExpandEnv (env.ReadFile confFlag).1)).1).2 ≠ none) :
    (telemetry.Setup env ctx confFlag g).1.1 = none ∧
      (telemetry.Setup env ctx confFlag g).1.2 ≠ none ∧
      (telemetry.Setup env ctx confFlag g).2 = g := by
  unfold telemetry.Setup
  rcases hr : env.ReadFile confFlag with ⟨b, _ | e1⟩
  · rcases hp : env.ParseYAML (env.ExpandEnv b) with ⟨conf, _ | e2⟩
    · rcases hs : env.NewSDK ctx conf with ⟨sdk, _ | e3⟩
      · simp [hr, hp, hs] at hfail
      · simp [hp, hs]
    · simp [hp]
  · simp

theorem Setup_failure_leaves_globals_witness :
    (telemetry.Setup unreadableEnv .background "./otel.yaml" Globals.initial).1.1 = none ∧
      (telemetry.Setup unreadableEnv .background "./otel.yaml" Globals.initial).1.2 ≠ none ∧
      (telemetry.Setup unreadableEnv .background "./otel.yaml" Globals.initial).2
        = Globals.initial :=
  Setup_failure_leaves_globals unreadableEnv .background "./otel.yaml" Globals.initial
    (Or.inl (by simp [unreadableEnv]))

/-- C2: when reading, parsing and SDK construction all succeed, `Setup` returns a nil
error and the SDK's `Shutdown` (a non-nil function), and afterwards the process-wide
propagator is the composite of trace-context and baggage and the tracer, meter and
logger providers are those of the constructed SDK, whatever was installed before. -/
theorem Setup_success_installs_sdk (env : Env) (ctx : Context) (confFlag : String)
    (g : Globals)
    (hread : (env.ReadFile confFlag).2 = none)
    (hparse : (env.ParseYAML (env.ExpandEnv (env.ReadFile confFlag).1)).2 = none)
    (hsdk : (env.NewSDK ctx
      (env.ParseYAML (env.ExpandEnv (env.ReadFile confFlag).1)).1).2 = none) :
    (telemetry.Setup env ctx confFlag g).1.2 = none ∧
      (telemetry.Setup env ctx confFlag g).1.1 = some (SDK.Shutdown (env.NewSDK ctx
        (env.ParseYAML (env.ExpandEnv (env.ReadFile confFlag).1)).1).1) ∧
      (telemetry.Setup env ctx confFlag g).1.1 ≠ none ∧
      (telemetry.Setup env ctx confFlag g).2 =
        { propagator := .composite [.TraceContext, .Baggage]
          tracerProvider := (env.NewSDK ctx
            (env.ParseYAML (env.ExpandEnv (env.ReadFile confFlag).1)).1).1.tracerProvider
          meterProvider := (env.NewSDK ctx
            (env.ParseYAML (env.ExpandEnv (env.ReadFile confFlag).1)).1).1.meterProvider
          loggerProvider := (env.NewSDK ctx
            (env.ParseYAML (env.ExpandEnv (env.ReadFile confFlag).1)).1).1.loggerProvider } := by
  unfold telemetry.Setup
  rcases hr : env.ReadFile confFlag with ⟨b, _ | e1⟩
  · rcases hp : env.ParseYAML (env.ExpandEnv b) with ⟨conf, _ | e2⟩
    · rcases hs : env.NewSDK ctx conf with ⟨sdk, _ | e3⟩
      · simp [hp, hs, SetTextMapPropagator, SetTracerProvider, SetMeterProvider,
          SetLoggerProvider, NewCompositeTextMapPropagator]
      · simp [hr, hp, hs] at hsdk
    · simp [hr, hp] at hparse
  · simp [hr] at hread

theorem Setup_success_installs_sdk_witness :
    (telemetry.Setup goodEnv .background "./otel.yaml" Globals.initial).1.2 = none ∧
      (telemetry.Setup goodEnv .background "./otel.yaml" Globals.initial).1.1 =
        some (SDK.Shutdown ⟨⟨.sdk 1⟩, ⟨.sdk 1⟩, ⟨.sdk 1⟩, 1⟩) ∧
      (telemetry.Setup goodEnv .background "./otel.yaml" Globals.initial).1.1 ≠ none ∧
      (telemetry.Setup goodEnv .background "./otel.yaml" Globals.initial).2 =
        { propagator := .composite [.TraceContext, .Baggage]
          tracerProvider := ⟨.sdk 1⟩
          meterProvider := ⟨.sdk 1⟩
          loggerProvider := ⟨.sdk 1⟩ } :=
  Setup_success_installs_sdk goodEnv .background "./otel.yaml" Globals.initial rfl rfl rfl

/-! ## The emitter loop: auxiliary facts -/

theorem forRange_tickerC (body : Tick → Proc → Proc) (ticks : List Tick) (s : Proc) :
    forRange body (tickerC ticks) s = (ticks.foldl (fun s t => body t s) s, false) := by
  induction ticks generalizing s with
  | nil => rfl
  | cons t ts ih =>
    have h := ih (body t s)
    simpa [tickerC, forRange] using h

theorem cycle_of_failure (marshal : SessionEvent → GoString × Option Error) (h : Handles)
    (t : Tick) (s : Proc) (err : Error) (hl : h.logger.stdoutLevel = .info)
    (hm : (marshal (generateSessionEvent t.fake)).2 = some err) :
    cycle marshal h t s =
      { s with
        stdout := s.stdout ++ [⟨.error, "Error serializing session event", [.error err]⟩]
        counter := Function.update s.counter h.errorCounter (s.counter h.errorCounter + 1) } := by
  rcases hp : marshal (generateSessionEvent t.fake) with ⟨p, _ | e⟩
  · simp [hp] at hm
  · simp only [hp, Option.some.injEq] at hm
    subst hm
    simp [cycle, hp, Logger.Error, Logger.write, Instrument.Add, hl, Level.toInt]

theorem cycle_of_success (marshal : SessionEvent → GoString × Option Error) (h : Handles)
    (t : Tick) (s : Proc) (hl : h.logger.stdoutLevel = .info)
    (hm : (marshal (generateSessionEvent t.fake)).2 = none) :
    cycle marshal h t s =
      { s with
        stdout := s.stdout ++ [⟨.info, "New session log event",
          [.string "data" (marshal (generateSessionEvent t.fake)).1]⟩]
        counter :=
          Function.update s.counter h.requestsCounter (s.counter h.requestsCounter + 1)
        histogram := Function.update s.histogram h.durationHist
          (s.histogram h.durationHist ++ [Duration.Seconds t.since]) } := by
  rcases hp : marshal (generateSessionEvent t.fake) with ⟨p, _ | e⟩
  · simp [cycle, hp, Logger.Info, Logger.write, Instrument.Add, Instrument.Record, hl,
      Level.toInt]
  · simp [hp] at hm

/-- The state after a sequence of cycles, field by field. -/
theorem cycles_fields (marshal : SessionEvent → GoString × Option Error) (h : Handles)
    (hl : h.logger.stdoutLevel = .info) (hne : h.requestsCounter ≠ h.errorCounter)
    (ticks : List Tick) (s : Proc) :
    (ticks.foldl (fun s t => cycle marshal h t s) s).stdout
        = s.stdout ++ ticks.map (cycleEntry marshal) ∧
      (ticks.foldl (fun s t => cycle marshal h t s) s).counter h.requestsCounter
        = s.counter h.requestsCounter + (successes marshal ticks).length ∧
      (ticks.foldl (fun s t => cycle marshal h t s) s).counter h.errorCounter
        = s.counter h.errorCounter + (failures marshal ticks).length ∧
      (ticks.foldl (fun s t => cycle marshal h t s) s).histogram h.durationHist
        = s.histogram h.durationHist
          ++ (successes marshal ticks).map (fun t => Duration.Seconds t.since) ∧
      (∀ i, i ≠ h.requestsCounter → i ≠ h.errorCounter →
        (ticks.foldl (fun s t => cycle marshal h t s) s).counter i = s.counter i) ∧
      (∀ i, i ≠ h.durationHist →
        (ticks.foldl (fun s t => cycle marshal h t s) s).histogram i = s.histogram i) ∧
      (ticks.foldl (fun s t => cycle marshal h t s) s).globals = s.globals ∧
      (ticks.foldl (fun s t => cycle marshal h t s) s).logger = s.logger ∧
      (ticks.foldl (fun s t => cycle marshal h t s) s).meter = s.meter ∧
      (ticks.foldl (fun s t => cycle marshal h t s) s).instruments = s.instruments ∧
      (ticks.foldl (fun s t => cycle marshal h t s) s).shutdowns = s.shutdowns ∧
      (ticks.foldl (fun s t => cycle marshal h t s) s).status = s.status := by
  induction ticks generalizing s with
  | nil => simp [successes, failures]
  | cons t ts ih =>
    obtain ⟨h1, h2, h3, h4, h5, h6, h7, h8, h9, h10, h11, h12⟩ := ih (cycle marshal h t s)
    simp only [List.foldl_cons]
    rcases hp : (marshal (generateSessionEvent t.fake)).2 with _ | err
    · rw [cycle_of_success marshal h t s hl hp] at h1 h2 h3 h4 h5 h6 h7 h8 h9 h10 h11 h12 ⊢
      refine ⟨?_, ?_, ?_, ?_, ?_, ?_, h7, h8, h9, h10, h11, h12⟩
      · rw [h1]
        rcases hq : marshal (generateSessionEvent t.fake) with ⟨q, e⟩
        rw [hq] at hp
        simp only at hp
        subst hp
        simp [cycleEntry, hq]
      · rw [h2]
        simp [successes, List.filter_cons, hp]
        ring
      · rw [h3]
        simp [failures, List.filter_cons, hp, Function.update_noteq (Ne.symm hne)]
      · rw [h4]
        simp [successes, List.filter_cons, hp]
      · intro i hi1 hi2
        rw [h5 i hi1 hi2]
        simp [Function.update_noteq hi1]
      · intro i hi
        rw [h6 i hi]
        simp [Function.update_noteq hi]
    · rw [cycle_of_failure marshal h t s err hl hp] at h1 h2 h3 h4 h5 h6 h7 h8 h9 h10 h11 h12 ⊢
      refine ⟨?_, ?_, ?_, ?_, ?_, ?_, h7, h8, h9, h10, h11, h12⟩
      · rw [h1]
        rcases hq : marshal (generateSessionEvent t.fake) with ⟨q, e⟩
        rw [hq] at hp
        simp only at hp
        subst hp
        simp [cycleEntry, hq]
      · rw [h2]
        simp [successes, List.filter_cons, hp, Function.update_noteq hne]
      · rw [h3]
        simp [failures, List.filter_cons, hp]
        ring
      · rw [h4]
        simp [successes, List.filter_cons, hp]
      · intro i hi1 hi2
        rw [h5 i hi1 hi2]
        simp [Function.update_noteq hi2]
      · intro i hi
        rw [h6 i hi]

/-! ## `main`: the two paths -/

theorem Setup_error_globals (env : Env) (ctx : Context) (confFlag : String) (g : Globals)
    (err : Error) (h : (telemetry.Setup env ctx confFlag g).1.2 = some err) :
    (telemetry.Setup env ctx confFlag g).2 = g := by
  unfold telemetry.Setup at h ⊢
  rcases hr : env.ReadFile confFlag with ⟨b, _ | e1⟩
  · rcases hp : env.ParseYAML (env.ExpandEnv b) with ⟨conf, _ | e2⟩
    · rcases hs : env.NewSDK ctx conf with ⟨sdk, _ | e3⟩
      · simp [hr, hp, hs] at h
      · simp [hp, hs]
    · simp [hp]
  · simp

theorem mainWith_of_setup_error (marshal : SessionEvent → GoString × Option Error)
    (env : Env) (otelFlag : Option String) (ticks : List Tick) (err : Error)
    (h : (telemetry.Setup env .background (otelFlag.getD "./otel.yaml")
      Globals.initial).1.2 = some err) :
    mainWith marshal env otelFlag ticks = fatalExit err := by
  have hg := Setup_error_globals env .background (otelFlag.getD "./otel.yaml")
    Globals.initial err h
  unfold mainWith
  rcases hs : telemetry.Setup env .background (otelFlag.getD "./otel.yaml") Globals.initial
    with ⟨⟨closer, _ | e⟩, g⟩
  · simp [hs] at h
  · simp only [hs, Option.some.injEq] at h hg
    subst h hg
    simp [Proc.start, hs, Logger.Fatal, Logger.write, mainLogger, Level.toInt, fatalExit]

theorem mainWith_of_setup_ok (marshal : SessionEvent → GoString × Option Error)
    (env : Env) (otelFlag : Option String) (ticks : List Tick)
    (h : (telemetry.Setup env .background (otelFlag.getD "./otel.yaml")
      Globals.initial).1.2 = none) :
    mainWith marshal env otelFlag ticks =
      ticks.foldl
        (fun s t => cycle marshal
          (mainHandles Globals.initial (otelMeter "otel-logs-example"
            (telemetry.Setup env .background (otelFlag.getD "./otel.yaml")
              Globals.initial).2)) t s)
        (loopEntry (telemetry.Setup env .background (otelFlag.getD "./otel.yaml")
          Globals.initial).2) := by
  unfold mainWith
  rcases hs : telemetry.Setup env .background (otelFlag.getD "./otel.yaml") Globals.initial
    with ⟨⟨closer, _ | e⟩, g⟩
  · simp [Proc.start, hs, forRange_tickerC, Meter.Int64Counter, Meter.Float64Histogram,
      Logger.Info, Logger.write, mainLogger, Level.toInt, loopEntry, mainHandles,
      requestsCounterOf, errorCounterOf, durationHistOf]
  · simp [hs] at h

theorem mainHandles_level (g : Globals) (m : Meter) :
    (mainHandles g m).logger.stdoutLevel = .info := rfl

theorem mainHandles_distinct (g : Globals) (m : Meter) :
    (mainHandles g m).requestsCounter ≠ (mainHandles g m).errorCounter := by
  simp [mainHandles, requestsCounterOf, errorCounterOf]

/-! ## One cycle -/

/-- C3: a cycle of the loop of `main` whose serialization fails writes exactly one log
entry, at error level and carrying the failure cause, increases the error counter
session_errors_total by exactly 1, and leaves the attempt counter session_requests_total
and every histogram unchanged. -/
theorem cycle_failure_effect (marshal : SessionEvent → GoString × Option Error)
    (g : Globals) (m : Meter) (t : Tick) (s : Proc) (err : Error)
    (hm : (marshal (generateSessionEvent t.fake)).2 = some err) :
    (cycle marshal (mainHandles g m) t s).stdout
        = s.stdout ++ [⟨.error, "Error serializing session event", [.error err]⟩] ∧
      (cycle marshal (mainHandles g m) t s).counter (errorCounterOf m)
        = s.counter (errorCounterOf m) + 1 ∧
      (cycle marshal (mainHandles g m) t s).counter (requestsCounterOf m)
        = s.counter (requestsCounterOf m) ∧
      (cycle marshal (mainHandles g m) t s).histogram = s.histogram := by
  rw [cycle_of_failure marshal (mainHandles g m) t s err rfl hm]
  refine ⟨rfl, ?_, ?_, rfl⟩
  · simp [mainHandles]
  · have hne := mainHandles_distinct g m
    simp only [mainHandles] at hne
    simp [mainHandles, Function.update_noteq hne]

theorem cycle_failure_effect_witness :
    (cycle failingMarshal (mainHandles Globals.initial ⟨⟨.default⟩, "otel-logs-example"⟩)
        badTick Proc.start).stdout
        = Proc.start.stdout
          ++ [⟨.error, "Error serializing session event", [.error "marshal failed"]⟩] ∧
      (cycle failingMarshal (mainHandles Globals.initial ⟨⟨.default⟩, "otel-logs-example"⟩)
        badTick Proc.start).counter (errorCounterOf ⟨⟨.default⟩, "otel-logs-example"⟩)
        = Proc.start.counter (errorCounterOf ⟨⟨.default⟩, "otel-logs-example"⟩) + 1 ∧
      (cycle failingMarshal (mainHandles Globals.initial ⟨⟨.default⟩, "otel-logs-example"⟩)
        badTick Proc.start).counter (requestsCounterOf ⟨⟨.default⟩, "otel-logs-example"⟩)
        = Proc.start.counter (requestsCounterOf ⟨⟨.default⟩, "otel-logs-example"⟩) ∧
      (cycle failingMarshal (mainHandles Globals.initial ⟨⟨.default⟩, "otel-logs-example"⟩)
        badTick Proc.start).histogram = Proc.start.histogram :=
  cycle_failure_effect failingMarshal Globals.initial ⟨⟨.default⟩, "otel-logs-example"⟩
    badTick Proc.start "marshal failed" rfl

/-- C4: a cycle of the loop of `main` whose record serializes writes exactly one log
entry, at info level, whose payload is the serialized record, increases the attempt
counter session_requests_total by exactly 1, appends exactly one observation to the
duration histogram, and leaves the error counter session_errors_total unchanged. -/
theorem cycle_success_effect (marshal : SessionEvent → GoString × Option Error)
    (g : Globals) (m : Meter) (t : Tick) (s : Proc)
    (hm : (marshal (generateSessionEvent t.fake)).2 = none) :
    (cycle marshal (mainHandles g m) t s).stdout
        = s.stdout ++ [⟨.info, "New session log event",
            [.string "data" (marshal (generateSessionEvent t.fake)).1]⟩] ∧
      (cycle marshal (mainHandles g m) t s).counter (requestsCounterOf m)
        = s.counter (requestsCounterOf m) + 1 ∧
      (cycle marshal (mainHandles g m) t s).histogram (durationHistOf m)
        = s.histogram (durationHistOf m) ++ [Duration.Seconds t.since] ∧
      (cycle marshal (mainHandles g m) t s).counter (errorCounterOf m)
        = s.counter (errorCounterOf m) := by
  rw [cycle_of_success marshal (mainHandles g m) t s rfl hm]
  refine ⟨rfl, ?_, ?_, ?_⟩
  · simp [mainHandles]
  · simp [mainHandles]
  · have hne := mainHandles_distinct g m
    simp only [mainHandles] at hne
    simp [mainHandles, Function.update_noteq (Ne.symm hne)]

theorem cycle_success_effect_witness :
    (cycle pickyMarshal (mainHandles Globals.initial ⟨⟨.default⟩, "otel-logs-example"⟩)
        okTick Proc.start).stdout
        = Proc.start.stdout ++ [⟨.info, "New session log event",
            [.string "data" (pickyMarshal (generateSessionEvent okTick.fake)).1]⟩] ∧
      (cycle pickyMarshal (mainHandles Globals.initial ⟨⟨.default⟩, "otel-logs-example"⟩)
        okTick Proc.start).counter (requestsCounterOf ⟨⟨.default⟩, "otel-logs-example"⟩)
        = Proc.start.counter (requestsCounterOf ⟨⟨.default⟩, "otel-logs-example"⟩) + 1 ∧
      (cycle pickyMarshal (mainHandles Globals.initial ⟨⟨.default⟩, "otel-logs-example"⟩)
        okTick Proc.start).histogram (durationHistOf ⟨⟨.default⟩, "otel-logs-example"⟩)
        = Proc.start.histogram (durationHistOf ⟨⟨.default⟩, "otel-logs-example"⟩)
          ++ [Duration.Seconds okTick.since] ∧
      (cycle pickyMarshal (mainHandles Globals.initial ⟨⟨.default⟩, "otel-logs-example"⟩)
        okTick Proc.start).counter (errorCounterOf ⟨⟨.default⟩, "otel-logs-example"⟩)
        = Proc.start.counter (errorCounterOf ⟨⟨.default⟩, "otel-logs-example"⟩) :=
  cycle_success_effect pickyMarshal Globals.initial ⟨⟨.default⟩, "otel-logs-example"⟩
    okTick Proc.start (by decide)

/-! ## A whole run -/

theorem countLevel_info_cycleEntries (marshal : SessionEvent → GoString × Option Error)
    (ticks : List Tick) :
    countLevel .info (ticks.map (cycleEntry marshal)) = (successes marshal ticks).length := by
  induction ticks with
  | nil => rfl
  | cons t ts ih =>
    unfold countLevel successes at ih ⊢
    rcases hq : marshal (generateSessionEvent t.fake) with ⟨q, _ | e⟩
    · simp [List.filter_cons, cycleEntry, hq, ih]
    · simp [List.filter_cons, cycleEntry, hq, ih]

theorem countLevel_error_cycleEntries (marshal : SessionEvent → GoString × Option Error)
    (ticks : List Tick) :
    countLevel .error (ticks.map (cycleEntry marshal)) = (failures marshal ticks).length := by
  induction ticks with
  | nil => rfl
  | cons t ts ih =>
    unfold countLevel failures at ih ⊢
    rcases hq : marshal (generateSessionEvent t.fake) with ⟨q, _ | e⟩
    · simp [List.filter_cons, cycleEntry, hq, ih]
    · simp [List.filter_cons, cycleEntry, hq, ih]

/-- C5 as stated fails: with three ticks that all serialize, the log of the run holds
four info-level lines, not three. -/
theorem info_lines_not_successes :
    (successes (fun e => json.Marshal goodEnv.quote e.fields)
        [okTick, okTick, okTick]).length = 3 ∧
      countLevel .info (main goodEnv none [okTick, okTick, okTick]).stdout = 4 ∧
      countLevel .info (main goodEnv none [okTick, okTick, okTick]).stdout ≠
        (successes (fun e => json.Marshal goodEnv.quote e.fields)
          [okTick, okTick, okTick]).length := by
  have hs : (successes (fun e => json.Marshal goodEnv.quote e.fields)
      [okTick, okTick, okTick]).length = 3 := by
    simp [successes, json.Marshal, json.encodeFields, json.encodeValue, SessionEvent.fields]
  have hok : (telemetry.Setup goodEnv .background ((none : Option String).getD "./otel.yaml")
      Globals.initial).1.2 = none := rfl
  have hc : countLevel .info (main goodEnv none [okTick, okTick, okTick]).stdout = 4 := by
    unfold main
    rw [mainWith_of_setup_ok _ goodEnv none _ hok]
    rw [(cycles_fields _ _ (mainHandles_level _ _) (mainHandles_distinct _ _) _ _).1]
    simp [loopEntry, countLevel, cycleEntry, json.Marshal, json.encodeFields,
      json.encodeValue, SessionEvent.fields]
  exact ⟨hs, hc, by rw [hs, hc]; decide⟩

/-- C5 (amended): for every sequence of ticks with k serialization successes and m
failures, after `main` has run those ticks the attempt counter equals k, the error
counter equals m, the duration histogram holds the k observations of the successful
ticks, and the log of the run is the info-level start-up line followed by one line per
tick in tick order, info for a success and error for a failure: k info and m error
cycle lines, hence k + 1 info-level lines and m error-level lines in all. -/
theorem run_totals (marshal : SessionEvent → GoString × Option Error) (env : Env)
    (otelFlag : Option String) (ticks : List Tick) (hok : setupError env otelFlag = none) :
    (mainWith marshal env otelFlag ticks).counter (requestsCounterOf (mainMeter env otelFlag))
        = (successes marshal ticks).length ∧
      (mainWith marshal env otelFlag ticks).counter (errorCounterOf (mainMeter env otelFlag))
        = (failures marshal ticks).length ∧
      (mainWith marshal env otelFlag ticks).histogram (durationHistOf (mainMeter env otelFlag))
        = (successes marshal ticks).map (fun t => Duration.Seconds t.since) ∧
      ((mainWith marshal env otelFlag ticks).histogram
          (durationHistOf (mainMeter env otelFlag))).length
        = (successes marshal ticks).length ∧
      (mainWith marshal env otelFlag ticks).stdout
        = ⟨.info, "Session generator started", []⟩ :: ticks.map (cycleEntry marshal) ∧
      countLevel .info (ticks.map (cycleEntry marshal)) = (successes marshal ticks).length ∧
      countLevel .error (ticks.map (cycleEntry marshal)) = (failures marshal ticks).length ∧
      countLevel .info (mainWith marshal env otelFlag ticks).stdout
        = (successes marshal ticks).length + 1 ∧
      countLevel .error (mainWith marshal env otelFlag ticks).stdout
        = (failures marshal ticks).length := by
  unfold setupError at hok
  unfold mainMeter setupGlobals
  rw [mainWith_of_setup_ok marshal env otelFlag ticks hok]
  obtain ⟨h1, h2, h3, h4, -⟩ := cycles_fields marshal
    (mainHandles Globals.initial (otelMeter "otel-logs-example"
      (telemetry.Setup env .background (otelFlag.getD "./otel.yaml") Globals.initial).2))
    (mainHandles_level _ _) (mainHandles_distinct _ _) ticks
    (loopEntry (telemetry.Setup env .background (otelFlag.getD "./otel.yaml")
      Globals.initial).2)
  have hi := countLevel_info_cycleEntries marshal ticks
  have he := countLevel_error_cycleEntries marshal ticks
  refine ⟨h2.trans ?_, h3.trans ?_, h4.trans ?_, ?_, h1.trans ?_, hi, he, ?_, ?_⟩
  · simp [loopEntry]
  · simp [loopEntry]
  · simp [loopEntry]
  · refine (congrArg List.length h4).trans ?_
    simp [loopEntry]
  · simp [loopEntry]
  · rw [h1]
    unfold countLevel at hi ⊢
    simp [loopEntry, List.filter_cons, hi]
  · rw [h1]
    unfold countLevel at he ⊢
    simp [loopEntry, List.filter_cons, he]

theorem run_totals_witness :
    setupError goodEnv none = none ∧
      (mainWith pickyMarshal goodEnv none [okTick, badTick, okTick]).counter
        (requestsCounterOf (mainMeter goodEnv none)) = 2 ∧
      (mainWith pickyMarshal goodEnv none [okTick, badTick, okTick]).counter
        (errorCounterOf (mainMeter goodEnv none)) = 1 ∧
      ((mainWith pickyMarshal goodEnv none [okTick, badTick, okTick]).histogram
        (durationHistOf (mainMeter goodEnv none))).length = 2 ∧
      (mainWith pickyMarshal goodEnv none [okTick, badTick, okTick]).stdout.map LogEntry.level
        = [.info, .info, .error, .info] := by
  have hs : successes pickyMarshal [okTick, badTick, okTick] = [okTick, okTick] := by decide
  have hf : failures pickyMarshal [okTick, badTick, okTick] = [badTick] := by decide
  obtain ⟨h1, h2, -, h4, h5, -⟩ :=
    run_totals pickyMarshal goodEnv none [okTick, badTick, okTick] rfl
  rw [hs] at h1 h4
  rw [hf] at h2
  refine ⟨rfl, h1, h2, h4, ?_⟩
  rw [h5]
  decide

/-! ## Shutdown -/

/-- C6 (what the code does): in every run of `main`, however many ticks the process
receives before it is terminated, the shutdown function returned by `Setup` has not been
invoked and `main` has not returned. The deferred call is registered, but the loop over
the ticker channel has no exit, so the return that would run it is never reached. -/
theorem main_never_invokes_shutdown (env : Env) (otelFlag : Option String)
    (ticks : List Tick) :
    (main env otelFlag ticks).shutdowns = [] ∧ (main env otelFlag ticks).status ≠ .returned := by
  unfold main
  rcases hs : (telemetry.Setup env .background (otelFlag.getD "./otel.yaml")
    Globals.initial).1.2 with _ | err
  · rw [mainWith_of_setup_ok _ env otelFlag ticks hs]
    obtain ⟨-, -, -, -, -, -, -, -, -, -, h11, h12⟩ := cycles_fields
      (fun e => json.Marshal env.quote e.fields)
      (mainHandles Globals.initial (otelMeter "otel-logs-example"
        (telemetry.Setup env .background (otelFlag.getD "./otel.yaml") Globals.initial).2))
      (mainHandles_level _ _) (mainHandles_distinct _ _) ticks
      (loopEntry (telemetry.Setup env .background (otelFlag.getD "./otel.yaml")
        Globals.initial).2)
    rw [h11, h12]
    simp [loopEntry]
  · rw [mainWith_of_setup_error _ env otelFlag ticks err hs]
    simp [fatalExit]

/-! ## Start-up failure -/

/-- C8: whenever `Setup` returns an error, `main` writes one fatal log entry carrying that
error and exits with status 1 before any instrument is created and before any cycle
runs: no meter is obtained, no instrument exists, every counter is 0, every histogram is
empty, and the log holds nothing but the fatal entry. -/
theorem main_fatal_on_setup_error (env : Env) (otelFlag : Option String)
    (ticks : List Tick) (err : Error) (herr : setupError env otelFlag = some err) :
    (main env otelFlag ticks).stdout
        = [⟨.fatal, "Failed to setup telemetry SDK", [.error err]⟩] ∧
      (main env otelFlag ticks).status = .exited 1 ∧
      (main env otelFlag ticks).meter = none ∧
      (main env otelFlag ticks).instruments = [] ∧
      (∀ i, (main env otelFlag ticks).counter i = 0) ∧
      (∀ i, (main env otelFlag ticks).histogram i = []) ∧
      (main env otelFlag ticks).shutdowns = [] := by
  unfold setupError at herr
  unfold main
  rw [mainWith_of_setup_error _ env otelFlag ticks err herr]
  simp [fatalExit]

theorem main_fatal_on_setup_error_witness :
    setupError unreadableEnv none = some "open ./otel.yaml: no such file or directory" ∧
      (main unreadableEnv none [okTick, okTick]).stdout
        = [⟨.fatal, "Failed to setup telemetry SDK",
            [.error "open ./otel.yaml: no such file or directory"]⟩] ∧
      (main unreadableEnv none [okTick, okTick]).status = .exited 1 ∧
      (main unreadableEnv none [okTick, okTick]).meter = none ∧
      (main unreadableEnv none [okTick, okTick]).instruments = [] ∧
      (∀ i, (main unreadableEnv none [okTick, okTick]).counter i = 0) ∧
      (∀ i, (main unreadableEnv none [okTick, okTick]).histogram i = []) ∧
      (main unreadableEnv none [okTick, okTick]).shutdowns = [] :=
  ⟨rfl, main_fatal_on_setup_error unreadableEnv none [okTick, okTick]
    "open ./otel.yaml: no such file or directory" rfl⟩

/-! ## Where the handles come from -/

/-- C9 as stated fails: in a run whose SDK brings its own logger provider, the provider
the log core of `main` is bound to is the one present before `Setup`, not the one in the
registry after `Setup` has returned. -/
theorem logger_provider_read_before_setup :
    (main goodEnv none []).logger.map Logger.otelProvider = some ⟨.default⟩ ∧
      GetLoggerProvider (main goodEnv none []).globals = ⟨.sdk 1⟩ ∧
      (main goodEnv none []).logger.map Logger.otelProvider
        ≠ some (GetLoggerProvider (main goodEnv none []).globals) := by
  have h : main goodEnv none [] = loopEntry (setupGlobals goodEnv none) :=
    mainWith_of_setup_ok _ goodEnv none [] rfl
  rw [h]
  refine ⟨rfl, rfl, ?_⟩
  simp [loopEntry, mainLogger, GetLoggerProvider, Globals.initial, setupGlobals, goodEnv,
    telemetry.Setup, SetLoggerProvider]

/-- C9 (amended): when `Setup` has returned successfully, the meter of `main` is read
from the process-wide registry as `Setup` left it and the three instruments are created
from that meter, while the logger provider the log core is bound to is read from the
registry as it was before `Setup` was called; every cycle runs with exactly these
handles. -/
theorem main_handles_origin (env : Env) (otelFlag : Option String) (ticks : List Tick)
    (hok : setupError env otelFlag = none) :
    main env otelFlag ticks =
        ticks.foldl
          (fun s t => cycle (fun e => json.Marshal env.quote e.fields)
            (mainHandles Globals.initial (mainMeter env otelFlag)) t s)
          (loopEntry (setupGlobals env otelFlag)) ∧
      (main env otelFlag ticks).globals = setupGlobals env otelFlag ∧
      (main env otelFlag ticks).meter.map Meter.provider
        = some (GetMeterProvider (setupGlobals env otelFlag)) ∧
      (main env otelFlag ticks).instruments
        = [ requestsCounterOf (mainMeter env otelFlag)
          , errorCounterOf (mainMeter env otelFlag)
          , durationHistOf (mainMeter env otelFlag) ] ∧
      (main env otelFlag ticks).logger.map Logger.otelProvider
        = some (GetLoggerProvider Globals.initial) ∧
      (mainHandles Globals.initial (mainMeter env otelFlag)).logger.otelProvider
        = GetLoggerProvider Globals.initial := by
  unfold setupError at hok
  have hmain := mainWith_of_setup_ok (fun e => json.Marshal env.quote e.fields) env otelFlag
    ticks hok
  obtain ⟨-, -, -, -, -, -, h7, h8, h9, h10, -⟩ := cycles_fields
    (fun e => json.Marshal env.quote e.fields)
    (mainHandles Globals.initial (otelMeter "otel-logs-example"
      (telemetry.Setup env .background (otelFlag.getD "./otel.yaml") Globals.initial).2))
    (mainHandles_level _ _) (mainHandles_distinct _ _) ticks
    (loopEntry (telemetry.Setup env .background (otelFlag.getD "./otel.yaml")
      Globals.initial).2)
  unfold main mainMeter setupGlobals
  rw [hmain, h7, h8, h9, h10]
  refine ⟨rfl, rfl, rfl, rfl, rfl, rfl⟩

theorem main_handles_origin_witness :
    setupError goodEnv none = none ∧
      (main goodEnv none [okTick]).globals = setupGlobals goodEnv none ∧
      (main goodEnv none [okTick]).meter.map Meter.provider = some ⟨.sdk 1⟩ ∧
      (main goodEnv none [okTick]).logger.map Logger.otelProvider = some ⟨.default⟩ := by
  obtain ⟨-, h2, h3, -, h5, -⟩ := main_handles_origin goodEnv none [okTick] rfl
  exact ⟨rfl, h2, h3, h5⟩

/-! ## Serialization of a session event cannot fail -/

theorem Marshal_SessionEvent_ok (quote : GoString → GoString) (ev : SessionEvent) :
    (json.Marshal quote ev.fields).2 = none := by
  simp [json.Marshal, json.encodeFields, json.encodeValue, SessionEvent.fields]

/-- C10: serializing any SessionEvent (six string fields) to JSON succeeds, so the
failure branch of the loop is never taken: in every run of `main` the error counter
session_errors_total is 0 and no error-level entry is in the log. -/
theorem main_no_serialization_failure (env : Env) (otelFlag : Option String)
    (ticks : List Tick) :
    (∀ ev : SessionEvent, (json.Marshal env.quote ev.fields).2 = none) ∧
      (∀ i : Instrument, i.name = "session_errors_total" →
        (main env otelFlag ticks).counter i = 0) ∧
      (∀ e ∈ (main env otelFlag ticks).stdout, e.level ≠ .error) := by
  refine ⟨Marshal_SessionEvent_ok env.quote, ?_⟩
  unfold main
  rcases hs : (telemetry.Setup env .background (otelFlag.getD "./otel.yaml")
    Globals.initial).1.2 with _ | err
  · rw [mainWith_of_setup_ok _ env otelFlag ticks hs]
    obtain ⟨h1, -, h3, -, h5, -⟩ := cycles_fields
      (fun e => json.Marshal env.quote e.fields)
      (mainHandles Globals.initial (otelMeter "otel-logs-example"
        (telemetry.Setup env .background (otelFlag.getD "./otel.yaml") Globals.initial).2))
      (mainHandles_level _ _) (mainHandles_distinct _ _) ticks
      (loopEntry (telemetry.Setup env .background (otelFlag.getD "./otel.yaml")
        Globals.initial).2)
    have hf : failures (fun e => json.Marshal env.quote e.fields) ticks = [] := by
      unfold failures
      rw [List.filter_eq_nil_iff]
      intro t _
      simp [Marshal_SessionEvent_ok]
    constructor
    · intro i hi
      by_cases he : i = (mainHandles Globals.initial (otelMeter "otel-logs-example"
          (telemetry.Setup env .background (otelFlag.getD "./otel.yaml")
            Globals.initial).2)).errorCounter
      · rw [he, h3, hf]
        simp [loopEntry]
      · have hr : i ≠ (mainHandles Globals.initial (otelMeter "otel-logs-example"
            (telemetry.Setup env .background (otelFlag.getD "./otel.yaml")
              Globals.initial).2)).requestsCounter := by
          intro h
          rw [h] at hi
          simp [mainHandles, requestsCounterOf] at hi
        rw [h5 i hr he]
        simp [loopEntry]
    · intro e he
      rw [h1] at he
      rcases List.mem_append.mp he with h | h
      · simp [loopEntry] at h
        rw [h]
        decide
      · obtain ⟨t, -, rfl⟩ := List.mem_map.mp h
        have hm := Marshal_SessionEvent_ok env.quote (generateSessionEvent t.fake)
        rcases hq : json.Marshal env.quote (generateSessionEvent t.fake).fields
          with ⟨q, _ | e⟩
        · simp [cycleEntry, hq]
        · simp [hq] at hm
  · rw [mainWith_of_setup_error _ env otelFlag ticks err hs]
    simp [fatalExit]

end OtelLogs
